import Mathlib

/-!
Verification development for the Nova Sonic speech-to-speech backend
(`backend/nova_s2s_backend.py` and the tool modules under `backend/lib/`).

The Python code is shallowly embedded: JSON values become the inductive
type `JVal`; Python dictionaries become association lists over `String`
keys; the mutable tables of `BedrockStreamManager` (result cache,
active-background-task table, screenshot rendezvous tables, output queue)
become explicit record state threaded through pure functions; a coroutine
that may raise becomes a function into `Except`.  The outcome of a
`json.loads` call on externally supplied text is passed in as an
`Except Unit JVal` argument (the stdlib parser is an external
collaborator), and the outcome of an awaited background coroutine is
passed in as a `TaskOutcome` value.
-/

/-- A JSON-like value, standing for the Python objects produced by
`json.loads` and passed between the manager and the tool handlers.
(JSON numbers are modelled as integers; no claim exercises floats.) -/
inductive JVal where
  | null : JVal
  | bool (b : Bool) : JVal
  | num (n : Int) : JVal
  | str (s : String) : JVal
  | arr (xs : List JVal) : JVal
  | obj (fields : List (String × JVal)) : JVal

/-- Lookup in an association list, embedding Python `dict` key access
(first binding wins, mirroring the unique-key property of `dict`). -/
def alistLookup (k : String) : List (String × JVal) → Option JVal
  | [] => none
  | (k2, v) :: rest => if k2 = k then some v else alistLookup k rest

/-- Remove every binding of a key, embedding `dict.pop` / `del d[k]`
on the containing dictionary. -/
def alistErase (k : String) (l : List (String × JVal)) : List (String × JVal) :=
  l.filter (fun kv => kv.1 ≠ k)

/-- `d[k] = v` on a Python dict: the key now maps to `v` and holds a
single binding. -/
def alistInsert (k : String) (v : JVal) (l : List (String × JVal)) : List (String × JVal) :=
  (k, v) :: alistErase k l

/-- The keys of an association list. -/
def alistKeys (l : List (String × JVal)) : List String := l.map Prod.fst

/-- Number of bindings an association list holds for a key (a faithful
image of a Python dict holds at most one). -/
def alistKeyCount (k : String) (l : List (String × JVal)) : Nat :=
  (l.filter (fun kv => kv.1 = k)).length

/-- Python truthiness (`if not x`) on the embedded values. -/
def pyFalsy : JVal → Bool
  | .null => true
  | .bool b => !b
  | .num n => n = 0
  | .str s => s = ""
  | .arr xs => xs.isEmpty
  | .obj fs => fs.isEmpty

mutual
/-- Python `repr` of an embedded value (string escaping is not modelled;
only used to render f-string interpolations inside containers). -/
def pyRepr : JVal → String
  | .null => "None"
  | .bool true => "True"
  | .bool false => "False"
  | .num n => toString n
  | .str s => "\x27" ++ s ++ "\x27"
  | .arr xs => "[" ++ pyReprList xs ++ "]"
  | .obj fs => "\x7b" ++ pyReprFields fs ++ "\x7d"

def pyReprList : List JVal → String
  | [] => ""
  | [x] => pyRepr x
  | x :: xs => pyRepr x ++ ", " ++ pyReprList xs

def pyReprFields : List (String × JVal) → String
  | [] => ""
  | [(k, v)] => "\x27" ++ k ++ "\x27: " ++ pyRepr v
  | (k, v) :: fs => "\x27" ++ k ++ "\x27: " ++ pyRepr v ++ ", " ++ pyReprFields fs
end

/-- Python `str()` of an embedded value (as interpolated by f-strings). -/
def pyStr : JVal → String
  | .str s => s
  | v => pyRepr v

mutual
/-- `json.dumps` of an embedded value (string escaping is not modelled). -/
def jsonDumps : JVal → String
  | .null => "null"
  | .bool true => "true"
  | .bool false => "false"
  | .num n => toString n
  | .str s => "\"" ++ s ++ "\""
  | .arr xs => "[" ++ jsonDumpsList xs ++ "]"
  | .obj fs => "\x7b" ++ jsonDumpsFields fs ++ "\x7d"

def jsonDumpsList : List JVal → String
  | [] => ""
  | [x] => jsonDumps x
  | x :: xs => jsonDumps x ++ ", " ++ jsonDumpsList xs

def jsonDumpsFields : List (String × JVal) → String
  | [] => ""
  | [(k, v)] => "\"" ++ k ++ "\": " ++ jsonDumps v
  | (k, v) :: fs => "\"" ++ k ++ "\": " ++ jsonDumps v ++ ", " ++ jsonDumpsFields fs
end

/-- Python `int(s)` on a string: optional surrounding whitespace, an
optional sign, then at least one decimal digit; `none` when `int`
raises `ValueError`. -/
def pyIntParse (s : String) : Option Int :=
  let stripped := ((s.toList.dropWhile Char.isWhitespace).reverse.dropWhile
    Char.isWhitespace).reverse
  let signDigits : Int × List Char :=
    match stripped with
    | '-' :: rest => (-1, rest)
    | '+' :: rest => (1, rest)
    | rest => (1, rest)
  if signDigits.2.length > 0 && signDigits.2.all Char.isDigit then
    some (signDigits.1 *
      (signDigits.2.foldl (fun a c => a * 10 + (c.toNat - 48)) 0 : Nat))
  else
    none

/-- Python `int(x)` on an embedded value that `str`-parses as an integer
(`int` of an int is itself; of a numeric string, the parsed value). -/
def pyIntOf : JVal → Option Int
  | .num n => some n
  | .str s => pyIntParse s
  | .bool b => some (if b then 1 else 0)
  | _ => none

/-- `dict.get(k)` on an embedded value; raising `AttributeError`
(modelled as `Except.error`) when the receiver is not a dict. -/
def pyDictGet (v : JVal) (k : String) : Except Unit (Option JVal) :=
  match v with
  | .obj fs => .ok (alistLookup k fs)
  | _ => .error ()

/-- `dict.get(k, default)` on an embedded value. -/
def pyDictGetD (v : JVal) (k : String) (d : JVal) : Except Unit JVal :=
  match v with
  | .obj fs => .ok ((alistLookup k fs).getD d)
  | _ => .error ()

/-- Substring test (`needle in haystack` for the fatal-error
classification); via `splitOn`, which splits at every occurrence. -/
def strContains (hay needle : String) : Bool :=
  (hay.splitOn needle).length > 1

/-- Python `str.lower()` (used to normalize tool names into registry
and cache keys). -/
def pyLower (s : String) : String :=
  ⟨s.toList.map Char.toLower⟩

/-- The `{"result": ..., "status": ...}` dictionaries returned by every
tool handler and by `processToolUse`. `status` is optional because the
response loop normalizes a possibly-absent key (`toolResult.get`). -/
structure ToolPayload where
  result : String
  status : Option String
deriving DecidableEq, Repr

/-- The `toolUse` content dictionary handed to a handler
(`event_data["toolUse"]`).  `content` holds the outcome of
`json.loads` on the raw `content` string (`none` when the key is
absent, in which case the code parses the default `"\x7b\x7d"`,
giving the empty object). -/
structure ToolUseContent where
  toolName : Option String
  toolUseId : Option String
  content : Option (Except Unit JVal)

/-- The parse outcome of the handler input: `tool_use_content.get("content", "\x7b\x7d")`
followed by `json.loads`. -/
def ToolUseContent.contentParsed (tc : ToolUseContent) : Except Unit JVal :=
  tc.content.getD (.ok (.obj []))

/- ===== backend/lib/number_race_tool.py ===== -/

/-- `is_integer(value)` from `number_race_tool.py`: `int(value)`
succeeds (the handler always passes `str(number)`). -/
def is_integer (value : String) : Bool :=
  (pyIntParse value).isSome

/-- `handle_number_race` from `number_race_tool.py`.  The second
component of the result is the number of seconds slept
(`time.sleep(num_val)`); `time.sleep` of a negative value raises
`ValueError`, caught by the blanket `except Exception`. -/
def handle_number_race (tc : ToolUseContent) : ToolPayload × Nat :=
  match tc.contentParsed with
  | .error _ =>
      ({ result := "Error: Invalid input format for numberRace tool.",
         status := some "error" }, 0)
  | .ok parsed =>
      match pyDictGet parsed "number" with
      | .error _ =>
          ({ result := "An unexpected error occurred in the numberRace tool.",
             status := some "error" }, 0)
      | .ok numberGot =>
          -- a JSON `null` value and an absent key both yield Python `None`
          let number : Option JVal :=
            match numberGot with
            | some .null => none
            | v => v
          match number with
          | none =>
              ({ result := "No number was provided for the race.",
                 status := some "error" }, 0)
          | some numv =>
              if is_integer (pyStr numv) then
                let num_val := (pyIntOf numv).getD 0
                if num_val < 0 then
                  ({ result := "An unexpected error occurred in the numberRace tool.",
                     status := some "error" }, 0)
                else
                  ({ result := s!"I am done waiting for {num_val} seconds.",
                     status := some "success" }, num_val.toNat)
              else
                ({ result := "The input \x27" ++ pyStr numv ++
                     "\x27 is not a valid integer for the number race.",
                   status := some "error" }, 0)

/- ===== backend/nova_s2s_backend.py : processToolUse ===== -/

/-- The keys of `self.tool_handlers` registered in
`BedrockStreamManager.__init__`. -/
def tool_handlers_keys : List String :=
  ["getweather", "numberrace", "agentsearch", "imageanalyzer"]

/-- `processToolUse(toolName, toolUseContent)`.  The dispatched handler
call is abstracted by `runHandler`, which maps the lower-cased tool key
to the outcome of awaiting that handler on the current invocation:
`Except.error` stands for the handler raising an exception. -/
def processToolUse (runHandler : String → Except String ToolPayload)
    (toolName : String) : ToolPayload :=
  let tool_key := pyLower toolName
  if tool_key ∈ tool_handlers_keys then
    match runHandler tool_key with
    | .ok result_payload => result_payload
    | .error _ =>
        { result := s!"An unexpected error occurred while executing tool {toolName}.",
          status := some "error" }
  else
    { result := s!"Tool {toolName} is not implemented or recognized by the backend.",
      status := some "error" }

/- ===== backend/nova_s2s_backend.py : background task machinery ===== -/

/-- The `toolCompletionNotification` custom event queued to the frontend
by `task_wrapper` after a background task resolves. -/
structure ToolCompletion where
  toolName : String
  toolUseId : String
  status : String
  message : String

/-- The manager state touched by the background-tool machinery:
`completed_async_tool_results` (the result cache, keyed by lower-cased
tool name), the key set of `active_background_tasks` (keyed by
`toolUseId`), and the `toolCompletionNotification` messages pushed onto
`output_queue` (newest first). -/
structure BgState where
  completed_async_tool_results : List (String × JVal)
  active_background_tasks : List String
  notifications : List ToolCompletion

/-- `launch_background_tool_task(tool_use_id, tool_name, factory)`:
if a task for this `tool_use_id` is already active, log and return with
nothing changed (second component `false`); otherwise create the task
and record it (second component `true`). -/
def launch_background_tool_task (st : BgState) (tool_use_id tool_name : String) :
    BgState × Bool :=
  if tool_use_id ∈ st.active_background_tasks then
    (st, false)
  else
    ({ st with active_background_tasks := tool_use_id :: st.active_background_tasks },
     true)

/-- The outcome of awaiting `actual_tool_coroutine_factory()` inside
`task_wrapper`. -/
inductive TaskOutcome where
  | success (payload : JVal)
  | failure (errMsg : String)
  | cancelled

/-- The body of `task_wrapper` once the awaited coroutine resolves with
`outcome`: on success the payload is cached under the lower-cased tool
name; on cancellation the wrapper returns silently (its `finally` still
deletes the active-task entry, but no notification is queued); on any
other exception no cache write happens; in every case the `tool_use_id`
entry leaves `active_background_tasks`, and except for cancellation a
`toolCompletionNotification` is queued. -/
def task_wrapper_complete (st : BgState) (tool_use_id tool_name : String)
    (outcome : TaskOutcome) : BgState :=
  match outcome with
  | .success payload =>
      let cache_key := pyLower tool_name
      let st1 := { st with
        completed_async_tool_results :=
          alistInsert cache_key payload st.completed_async_tool_results }
      let st2 := { st1 with
        active_background_tasks := st1.active_background_tasks.filter (· ≠ tool_use_id) }
      { st2 with notifications :=
          { toolName := tool_name, toolUseId := tool_use_id, status := "success",
            message := s!"The {tool_name} operation (ID: {tool_use_id}) has completed. You can now ask for the results." }
          :: st2.notifications }
  | .failure errMsg =>
      let st2 := { st with
        active_background_tasks := st.active_background_tasks.filter (· ≠ tool_use_id) }
      { st2 with notifications :=
          { toolName := tool_name, toolUseId := tool_use_id, status := "error",
            message := s!"An error occurred in the background while processing {tool_name} (ID: {tool_use_id}): {errMsg}" }
          :: st2.notifications }
  | .cancelled =>
      { st with
        active_background_tasks := st.active_background_tasks.filter (· ≠ tool_use_id) }

/- ===== backend/lib/agent_search/agent_search_tool.py ===== -/

/-- `handle_agent_search(manager_instance, tool_use_content)`.  Returns
the payload handed back to the model together with the updated manager
state.  The long-running A2A call only happens inside the launched
background coroutine, so it does not appear here; its outcome is fed to
`task_wrapper_complete` separately. -/
def handle_agent_search (st : BgState) (tc : ToolUseContent) : ToolPayload × BgState :=
  let raw_tool_name := tc.toolName.getD "agentSearch_fallback"
  let cache_key_to_check := pyLower raw_tool_name
  -- `if not tool_use_id:` — `None` (absent key) and `""` are both falsy
  if (tc.toolUseId.getD "") = "" then
    ({ result := s!"Error: Missing toolUseId for {raw_tool_name}.",
       status := some "error" }, st)
  else
    let tool_use_id := tc.toolUseId.getD ""
    match tc.contentParsed with
    | .error _ =>
        ({ result := s!"Error: Invalid input format for {raw_tool_name} tool.",
           status := some "error" }, st)
    | .ok parsed =>
        match pyDictGetD parsed "query" (.str "") with
        | .error _ =>
            -- `.get` on a non-dict raises; caught by the blanket `except Exception`
            ({ result := s!"An unexpected error occurred while initiating {raw_tool_name}.",
               status := some "error" }, st)
        | .ok query =>
            if pyFalsy query then
              ({ result := s!"Please provide a query for {raw_tool_name}.",
                 status := some "error" }, st)
            else
              match alistLookup cache_key_to_check st.completed_async_tool_results with
              | some cached_result_data =>
                  ({ result := jsonDumps cached_result_data, status := some "success" },
                   { st with completed_async_tool_results :=
                       alistErase cache_key_to_check st.completed_async_tool_results })
              | none =>
                  if tool_use_id ∈ st.active_background_tasks then
                    ({ result := "I am still working on the " ++ raw_tool_name ++
                         " for \x27" ++ pyStr query ++ "\x27. I will notify you.",
                       status := some "success" }, st)
                  else
                    let st1 := (launch_background_tool_task st tool_use_id raw_tool_name).1
                    ({ result := "Okay, I\x27m starting the " ++ raw_tool_name ++
                         " for \x27" ++ pyStr query ++
                         "\x27. This may take a moment. I\x27ll notify you in the chat when it\x27s complete.",
                       status := some "success" }, st1)

/- ===== backend/lib/image_analyzer/image_analyzer_tool.py ===== -/

/-- `handle_imageanalyzer(manager_instance, tool_use_content)`.  Same
retrieval protocol as `handle_agent_search`; the fresh
`image_analysis_operation_id` (a `uuid.uuid4()`) only matters inside
the background coroutine, so it does not affect this step. -/
def handle_imageanalyzer (st : BgState) (tc : ToolUseContent) : ToolPayload × BgState :=
  let raw_tool_name := tc.toolName.getD "imageAnalyzer"
  let cache_key_to_check := pyLower raw_tool_name
  if (tc.toolUseId.getD "") = "" then
    ({ result := "Error: System error (missing toolUseId).",
       status := some "error" }, st)
  else
    let tool_use_id := tc.toolUseId.getD ""
    match tc.contentParsed with
    | .error _ =>
        ({ result := s!"Error: Invalid input format for {raw_tool_name} tool.",
           status := some "error" }, st)
    | .ok parsed =>
        match pyDictGetD parsed "context" (.str "the current page content") with
        | .error _ =>
            ({ result := s!"An unexpected error occurred while initiating {raw_tool_name}.",
               status := some "error" }, st)
        | .ok query_context =>
            match alistLookup cache_key_to_check st.completed_async_tool_results with
            | some cached_result_data =>
                ({ result :=
                     match cached_result_data with
                     | .obj _ => jsonDumps cached_result_data
                     | other => pyStr other,
                   status := some "success" },
                 { st with completed_async_tool_results :=
                     alistErase cache_key_to_check st.completed_async_tool_results })
            | none =>
                if tool_use_id ∈ st.active_background_tasks then
                  ({ result := "I am still processing a previous request to analyze an image. I will notify you when it\x27s complete.",
                     status := some "success" }, st)
                else
                  let st1 := (launch_background_tool_task st tool_use_id raw_tool_name).1
                  ({ result := "Okay, I\x27ll capture and analyze the image of your current page regarding \x27" ++
                       pyStr query_context ++
                       "\x27. I\x27ll notify you when the description is ready.",
                     status := some "success" }, st1)

/- ===== backend/nova_s2s_backend.py : deliver_screenshot_data ===== -/

/-- The screenshot-rendezvous tables of the manager:
`pending_screenshot_events` maps an analysis operation id to the
`asyncio.Event`, modelled by its set-flag; `received_screenshot_data`
maps the id to the delivered dictionary. -/
structure ScreenshotState where
  pending_screenshot_events : List (String × Bool)
  received_screenshot_data : List (String × JVal)

/-- Lookup in the event table. -/
def eventLookup (k : String) : List (String × Bool) → Option Bool
  | [] => none
  | (k2, v) :: rest => if k2 = k then some v else eventLookup k rest

/-- `deliver_screenshot_data(analysis_id, image_data_url, error_message)`:
when the id has a pending event, store the payload (or the error) in
`received_screenshot_data` and set the event; otherwise only a warning
is logged and nothing changes.  `if error_message:` and
`elif image_data_url:` are Python truthiness tests, so `""` counts as
absent. -/
def deliver_screenshot_data (st : ScreenshotState) (analysis_id : String)
    (image_data_url : Option String) (error_message : Option String) : ScreenshotState :=
  if (eventLookup analysis_id st.pending_screenshot_events).isSome then
    let datum : JVal :=
      if (error_message.getD "") ≠ "" then
        .obj [("error", .str (error_message.getD ""))]
      else if (image_data_url.getD "") ≠ "" then
        .obj [("imageDataUrl", .str (image_data_url.getD ""))]
      else
        .obj [("error", .str "No image data and no error message provided.")]
    { pending_screenshot_events :=
        st.pending_screenshot_events.map
          (fun kv => if kv.1 = analysis_id then (kv.1, true) else kv),
      received_screenshot_data :=
        (analysis_id, datum) ::
          st.received_screenshot_data.filter (fun kv => kv.1 ≠ analysis_id) }
  else
    st

/- ===== backend/nova_s2s_backend.py : _process_responses / forward_responses ===== -/

/-- Status normalization when `_process_responses` builds the
`toolResult` event (the `status = "error" if toolResult.get("status") == "error"
else "success"` expression); `toolResult` is the dictionary returned by
`processToolUse`, given here by its fields. -/
def tool_result_event_status (toolResult : List (String × JVal)) : String :=
  match alistLookup "status" toolResult with
  | some (.str s) => if s = "error" then "error" else "success"
  | _ => "success"

/-- One iteration-worth of outcome of the `receive()` on the Bedrock
stream inside `_process_responses`: a decoded chunk (with the result of
`json.loads` on its text), an empty `result.value`, a falsy
`await_output()`, `StopAsyncIteration`, `asyncio.CancelledError`, or
any other exception carrying its message string. -/
inductive RecvEvent where
  | chunk (raw : String) (parse : Except Unit JVal)
  | emptyValue
  | noOutput
  | stopIter
  | cancel
  | err (msg : String)

/-- A message pushed onto the `output_queue` of the manager by the response
loop: a forwarded Bedrock event, the structured JSON-decode-error
object, the fatal Bedrock stream error payload, or the final `None`
sentinel from the `finally` block. -/
inductive OutMsg where
  | event (j : JVal)
  | decodeError (raw : String)
  | fatalError (payload : JVal)
  | sentinel

/-- Whether an `output_queue` message is the `None` sentinel. -/
def OutMsg.isSentinel : OutMsg → Bool
  | .sentinel => true
  | _ => false

/-- Whether an `output_queue` message is a fatal-error notification. -/
def OutMsg.isFatal : OutMsg → Bool
  | .fatalError _ => true
  | _ => false

/-- The fixed substrings that classify a Bedrock receive error as fatal
(`is_fatal_bedrock_error` in `_process_responses`). -/
def fatal_error_substrings : List String :=
  ["Invalid voice ID", "ValidationException", "Error(s):"]

/-- `is_fatal_bedrock_error`: the error message contains one of the
fixed fatal substrings. -/
def is_fatal_bedrock_error (msg : String) : Bool :=
  fatal_error_substrings.any (strContains msg)

/-- The fatal error payload queued to the frontend
(`error_message_str.splitlines()[0]` becomes the message). -/
def fatal_error_payload (msg : String) : JVal :=
  .obj [("event", .obj [("error", .obj
    [("type", .str "BedrockStreamError"),
     ("message", .str (((msg.splitOn "\n").headD ""))),
     ("fatal", .bool true)])])]

/-- The `output_queue` message produced by a successfully received
chunk: the parsed event is forwarded; on `json.JSONDecodeError` the
structured error object is forwarded instead. -/
def chunkOut : RecvEvent → List OutMsg
  | .chunk raw p =>
      match p with
      | .ok j => [.event j]
      | .error _ => [.decodeError raw]
  | _ => []

/-- Whether a receive event is a plain chunk (an iteration that keeps
the loop running). -/
def RecvEvent.isChunk : RecvEvent → Bool
  | .chunk _ _ => true
  | _ => false

/-- The `while self.is_active` loop body of `_process_responses`, run
over a script of receive outcomes.  Result: the `output_queue`
messages pushed by the loop (in order), the value of `is_active`
when the loop stops, whether `CancelledError` was re-raised, and
whether the loop actually exited within the script (a `false` last
component means the script ran out while the loop would still be
awaiting the next receive). -/
def respLoop : List RecvEvent → List OutMsg × Bool × Bool × Bool
  | [] => ([], true, false, false)
  | e :: rest =>
      match e with
      | .chunk raw p =>
          let out := respLoop rest
          (chunkOut (.chunk raw p) ++ out.1, out.2)
      | .emptyValue => ([], true, false, true)
      | .noOutput => ([], true, false, true)
      | .stopIter => ([], true, false, true)
      | .cancel => ([], false, true, true)
      | .err msg =>
          (if is_fatal_bedrock_error msg then [.fatalError (fatal_error_payload msg)] else [],
           false, false, true)

/-- `_process_responses` as a whole: the loop followed by the `finally`
block, which forces `is_active := false` and pushes the single `None`
sentinel.  Result: full `output_queue` content pushed by this task, the
final `is_active`, and whether `CancelledError` propagated. -/
def process_responses (evts : List RecvEvent) : List OutMsg × Bool × Bool :=
  let out := respLoop evts
  (out.1 ++ [.sentinel], false, out.2.2.1)

/-- Whether the script makes the loop exit (rather than being still
blocked on a receive). -/
def loopExits (evts : List RecvEvent) : Bool :=
  (respLoop evts).2.2.2

/-- `forward_responses`: dequeue and send messages to the websocket
until the `None` sentinel is dequeued, which terminates the forwarder
without being sent.  Result: the messages actually serialized to the
wire, in order. -/
def forward_responses : List OutMsg → List OutMsg
  | [] => []
  | .sentinel :: _ => []
  | m :: rest => m :: forward_responses rest

/- ===== concrete inputs used by the witnesses ===== -/

/-- The `output_queue` messages contributed by a list of received
chunks. -/
def chunkOuts (evts : List RecvEvent) : List OutMsg :=
  (evts.map chunkOut).flatten

/-- A numberRace tool-use content with a given parsed "number" input. -/
def numberRaceContent (v : JVal) : ToolUseContent :=
  ⟨some "numberRace", some "t1", some (.ok (.obj [("number", v)]))⟩

/-- An agentSearch tool-use content: invocation id `tid1`, query `X`. -/
def agentSearchContent : ToolUseContent :=
  ⟨some "agentSearch", some "tid1", some (.ok (.obj [("query", .str "X")]))⟩

/-- An imageAnalyzer tool-use content: invocation id `tid2`. -/
def imageAnalyzerContent : ToolUseContent :=
  ⟨some "imageAnalyzer", some "tid2", some (.ok (.obj [("context", .str "colors")]))⟩

/-- The empty manager state (fresh session). -/
def bgInit : BgState := ⟨[], [], []⟩

/- ===== shared helper lemmas ===== -/

theorem alistLookup_insert (k : String) (v : JVal) (l : List (String × JVal)) :
    alistLookup k (alistInsert k v l) = some v := by
  simp [alistInsert, alistLookup]

theorem alistLookup_erase (k : String) (l : List (String × JVal)) :
    alistLookup k (alistErase k l) = none := by
  induction l with
  | nil => simp [alistErase, alistLookup]
  | cons kv rest ih =>
      by_cases h : kv.1 = k
      · simpa [alistErase, alistLookup, h] using ih
      · simpa [alistErase, alistLookup, h] using ih

theorem alistKeyCount_erase (k : String) (l : List (String × JVal)) :
    alistKeyCount k (alistErase k l) = 0 := by
  induction l with
  | nil => simp [alistKeyCount, alistErase]
  | cons kv rest ih =>
      by_cases h : kv.1 = k
      · simpa [alistKeyCount, alistErase, h] using ih
      · simpa [alistKeyCount, alistErase, h] using ih

theorem alistKeyCount_insert (k : String) (v : JVal) (l : List (String × JVal)) :
    alistKeyCount k (alistInsert k v l) = 1 := by
  have h := alistKeyCount_erase k l
  simp [alistKeyCount, alistInsert] at h ⊢
  simpa [alistKeyCount, alistErase] using h

theorem alistKeyCount_erase_le (k k2 : String) (l : List (String × JVal)) :
    alistKeyCount k (alistErase k2 l) ≤ alistKeyCount k l := by
  have h1 : (alistErase k2 l).Sublist l := List.filter_sublist l
  exact (h1.filter (fun kv => decide (kv.1 = k))).length_le

/- ===== branch lemmas for the slow-tool handlers ===== -/

theorem handle_agent_search_cache_hit (st : BgState) (tc : ToolUseContent)
    (id q : String) (fields : List (String × JVal)) (v : JVal)
    (hid : tc.toolUseId = some id) (hne : id ≠ "")
    (hc : tc.content = some (.ok (.obj fields)))
    (hq : alistLookup "query" fields = some (.str q)) (hqne : q ≠ "")
    (hv : alistLookup (pyLower (tc.toolName.getD "agentSearch_fallback"))
      st.completed_async_tool_results = some v) :
    handle_agent_search st tc =
      ({ result := jsonDumps v, status := some "success" },
       { st with completed_async_tool_results :=
           (alistErase (pyLower (tc.toolName.getD "agentSearch_fallback"))
             st.completed_async_tool_results) }) := by
  simp [handle_agent_search, hid, hne, hc, ToolUseContent.contentParsed,
    pyDictGetD, hq, pyFalsy, hqne, hv]

theorem handle_agent_search_still_working (st : BgState) (tc : ToolUseContent)
    (id q : String) (fields : List (String × JVal))
    (hid : tc.toolUseId = some id) (hne : id ≠ "")
    (hc : tc.content = some (.ok (.obj fields)))
    (hq : alistLookup "query" fields = some (.str q)) (hqne : q ≠ "")
    (hmiss : alistLookup (pyLower (tc.toolName.getD "agentSearch_fallback"))
      st.completed_async_tool_results = none)
    (hact : id ∈ st.active_background_tasks) :
    handle_agent_search st tc =
      ({ result := "I am still working on the " ++ tc.toolName.getD "agentSearch_fallback" ++
           " for \x27" ++ q ++ "\x27. I will notify you.",
         status := some "success" }, st) := by
  simp [handle_agent_search, hid, hne, hc, ToolUseContent.contentParsed,
    pyDictGetD, hq, pyFalsy, hqne, hmiss, hact, pyStr]

theorem handle_agent_search_launch (st : BgState) (tc : ToolUseContent)
    (id q : String) (fields : List (String × JVal))
    (hid : tc.toolUseId = some id) (hne : id ≠ "")
    (hc : tc.content = some (.ok (.obj fields)))
    (hq : alistLookup "query" fields = some (.str q)) (hqne : q ≠ "")
    (hmiss : alistLookup (pyLower (tc.toolName.getD "agentSearch_fallback"))
      st.completed_async_tool_results = none)
    (hact : id ∉ st.active_background_tasks) :
    handle_agent_search st tc =
      ({ result := "Okay, I\x27m starting the " ++ tc.toolName.getD "agentSearch_fallback" ++
           " for \x27" ++ q ++
           "\x27. This may take a moment. I\x27ll notify you in the chat when it\x27s complete.",
         status := some "success" },
       { st with active_background_tasks := id :: st.active_background_tasks }) := by
  simp [handle_agent_search, hid, hne, hc, ToolUseContent.contentParsed,
    pyDictGetD, hq, pyFalsy, hqne, hmiss, hact, pyStr, launch_background_tool_task]

set_option maxRecDepth 4000 in
theorem handle_imageanalyzer_cache_hit (st : BgState) (tc : ToolUseContent)
    (id : String) (fields : List (String × JVal)) (v : JVal)
    (hid : tc.toolUseId = some id) (hne : id ≠ "")
    (hc : tc.content = some (.ok (.obj fields)))
    (hv : alistLookup (pyLower (tc.toolName.getD "imageAnalyzer"))
      st.completed_async_tool_results = some v) :
    handle_imageanalyzer st tc =
      ({ result := (match v with | .obj _ => jsonDumps v | w => pyStr w),
         status := some "success" },
       { st with completed_async_tool_results :=
           (alistErase (pyLower (tc.toolName.getD "imageAnalyzer"))
             st.completed_async_tool_results) }) := by
  simp only [handle_imageanalyzer, hid, Option.getD_some, ToolUseContent.contentParsed,
    hc, pyDictGetD, hv, if_neg hne]
  cases v <;> rfl

/-- C2: at most one background task per invocation id.  With `id` not
yet active, the first launch spawns a unit; a second launch with the
same id spawns nothing and leaves the task table unchanged; exactly one
unit is active; and the single completion performs exactly one write to
the result cache (under the lower-cased tool name) and removes the id
from the active-task table. -/
theorem claim_C2_one_background_task_per_id (st : BgState) (id name : String) (v : JVal)
    (h : id ∉ st.active_background_tasks) :
    (launch_background_tool_task st id name).2 = true ∧
    launch_background_tool_task (launch_background_tool_task st id name).1 id name =
      ((launch_background_tool_task st id name).1, false) ∧
    (launch_background_tool_task st id name).1.active_background_tasks.count id = 1 ∧
    (task_wrapper_complete (launch_background_tool_task st id name).1 id name
        (.success v)).completed_async_tool_results =
      alistInsert (pyLower name) v st.completed_async_tool_results ∧
    alistKeyCount (pyLower name)
      (task_wrapper_complete (launch_background_tool_task st id name).1 id name
        (.success v)).completed_async_tool_results = 1 ∧
    id ∉ (task_wrapper_complete (launch_background_tool_task st id name).1 id name
        (.success v)).active_background_tasks := by
  have hl : launch_background_tool_task st id name =
      ({ st with active_background_tasks := id :: st.active_background_tasks }, true) := by
    simp [launch_background_tool_task, h]
  refine ⟨by simp [hl], ?_, ?_, ?_, ?_, ?_⟩
  · rw [hl]
    simp [launch_background_tool_task]
  · rw [hl]
    simp [List.count_cons_self, List.count_eq_zero.mpr h]
  · rw [hl]
    simp [task_wrapper_complete]
  · rw [hl]
    simp [task_wrapper_complete, alistKeyCount_insert]
  · rw [hl]
    simp [task_wrapper_complete]

/-- C1: the slow-tool retrieval protocol of the agentSearch handler.
For a well-formed invocation (id present and nonempty, input parsing to
an object with a nonempty string query): a cached result under the
lower-cased tool name is popped and returned with status success; else
an already-active background task for this invocation id yields the
"still working" placeholder, status success, with no state change; else
a background task is launched and the "starting" placeholder, status
success, is returned.  Furthermore, re-invoking before completion
returns the "still working" placeholder without starting new work, and
after the background completion a further invocation returns the cached
payload and leaves the cache empty for that tool name. -/
theorem claim_C1_agent_search_retrieval_protocol (st : BgState) (tc : ToolUseContent)
    (id q : String) (fields : List (String × JVal))
    (hid : tc.toolUseId = some id) (hne : id ≠ "")
    (hc : tc.content = some (.ok (.obj fields)))
    (hq : alistLookup "query" fields = some (.str q)) (hqne : q ≠ "") :
    (∀ v, alistLookup (pyLower (tc.toolName.getD "agentSearch_fallback"))
        st.completed_async_tool_results = some v →
      handle_agent_search st tc =
        ({ result := jsonDumps v, status := some "success" },
         { st with completed_async_tool_results :=
             (alistErase (pyLower (tc.toolName.getD "agentSearch_fallback"))
               st.completed_async_tool_results) })) ∧
    (alistLookup (pyLower (tc.toolName.getD "agentSearch_fallback"))
        st.completed_async_tool_results = none →
      id ∈ st.active_background_tasks →
      handle_agent_search st tc =
        ({ result := "I am still working on the " ++ tc.toolName.getD "agentSearch_fallback" ++
             " for \x27" ++ q ++ "\x27. I will notify you.",
           status := some "success" }, st)) ∧
    (alistLookup (pyLower (tc.toolName.getD "agentSearch_fallback"))
        st.completed_async_tool_results = none →
      id ∉ st.active_background_tasks →
      handle_agent_search st tc =
        ({ result := "Okay, I\x27m starting the " ++ tc.toolName.getD "agentSearch_fallback" ++
             " for \x27" ++ q ++
             "\x27. This may take a moment. I\x27ll notify you in the chat when it\x27s complete.",
           status := some "success" },
         { st with active_background_tasks := id :: st.active_background_tasks })) ∧
    (∀ v, alistLookup (pyLower (tc.toolName.getD "agentSearch_fallback"))
        st.completed_async_tool_results = none →
      id ∉ st.active_background_tasks →
      (handle_agent_search (handle_agent_search st tc).2 tc).1.result =
          "I am still working on the " ++ tc.toolName.getD "agentSearch_fallback" ++
            " for \x27" ++ q ++ "\x27. I will notify you." ∧
      (handle_agent_search (handle_agent_search st tc).2 tc).2 = (handle_agent_search st tc).2 ∧
      (handle_agent_search (task_wrapper_complete (handle_agent_search st tc).2 id
          (tc.toolName.getD "agentSearch_fallback") (.success v)) tc).1 =
        { result := jsonDumps v, status := some "success" } ∧
      alistLookup (pyLower (tc.toolName.getD "agentSearch_fallback"))
        (handle_agent_search (task_wrapper_complete (handle_agent_search st tc).2 id
          (tc.toolName.getD "agentSearch_fallback") (.success v)) tc).2.completed_async_tool_results
        = none) := by
  refine ⟨?_, ?_, ?_, ?_⟩
  · intro v hv
    exact handle_agent_search_cache_hit st tc id q fields v hid hne hc hq hqne hv
  · intro hmiss hact
    exact handle_agent_search_still_working st tc id q fields hid hne hc hq hqne hmiss hact
  · intro hmiss hact
    exact handle_agent_search_launch st tc id q fields hid hne hc hq hqne hmiss hact
  · intro v hmiss hact
    have h1 := handle_agent_search_launch st tc id q fields hid hne hc hq hqne hmiss hact
    -- the state after the first invocation
    have hst1 : (handle_agent_search st tc).2 =
        { st with active_background_tasks := id :: st.active_background_tasks } := by
      rw [h1]
    have hmiss1 : alistLookup (pyLower (tc.toolName.getD "agentSearch_fallback"))
        (handle_agent_search st tc).2.completed_async_tool_results = none := by
      rw [hst1]; exact hmiss
    have hact1 : id ∈ (handle_agent_search st tc).2.active_background_tasks := by
      rw [hst1]; exact List.mem_cons_self _ _
    have h2 := handle_agent_search_still_working (handle_agent_search st tc).2 tc id q fields
      hid hne hc hq hqne hmiss1 hact1
    -- the state after the background completion
    have hcomp : (task_wrapper_complete (handle_agent_search st tc).2 id
        (tc.toolName.getD "agentSearch_fallback") (.success v)).completed_async_tool_results =
        alistInsert (pyLower (tc.toolName.getD "agentSearch_fallback")) v
          (handle_agent_search st tc).2.completed_async_tool_results := by
      simp [task_wrapper_complete]
    have hv2 : alistLookup (pyLower (tc.toolName.getD "agentSearch_fallback"))
        (task_wrapper_complete (handle_agent_search st tc).2 id
          (tc.toolName.getD "agentSearch_fallback")
          (.success v)).completed_async_tool_results = some v := by
      rw [hcomp]; exact alistLookup_insert _ _ _
    have h3 := handle_agent_search_cache_hit
      (task_wrapper_complete (handle_agent_search st tc).2 id
        (tc.toolName.getD "agentSearch_fallback") (.success v)) tc id q fields v
      hid hne hc hq hqne hv2
    refine ⟨by rw [h2], by rw [h2], by rw [h3], ?_⟩
    rw [h3]
    exact alistLookup_erase _ _

/-- C3: the result cache is consume-on-read.  A cached entry under the
tool name is popped by the first retrieval (the state afterwards has no
entry for that key); a second invocation without an intervening
completion takes the placeholder path (still-working or starting), so
the cached result is never returned twice; retrievals never grow the
per-key multiplicity, and the same pop discipline holds for the
imageAnalyzer handler. -/
theorem claim_C3_cache_consume_on_read (st : BgState) (tc : ToolUseContent)
    (id q : String) (fields : List (String × JVal)) (v : JVal)
    (hid : tc.toolUseId = some id) (hne : id ≠ "")
    (hc : tc.content = some (.ok (.obj fields)))
    (hq : alistLookup "query" fields = some (.str q)) (hqne : q ≠ "")
    (hv : alistLookup (pyLower (tc.toolName.getD "agentSearch_fallback"))
      st.completed_async_tool_results = some v) :
    (handle_agent_search st tc).1 = { result := jsonDumps v, status := some "success" } ∧
    alistLookup (pyLower (tc.toolName.getD "agentSearch_fallback"))
      (handle_agent_search st tc).2.completed_async_tool_results = none ∧
    ((handle_agent_search (handle_agent_search st tc).2 tc).1.result =
        "I am still working on the " ++ tc.toolName.getD "agentSearch_fallback" ++
          " for \x27" ++ q ++ "\x27. I will notify you." ∨
     (handle_agent_search (handle_agent_search st tc).2 tc).1.result =
        "Okay, I\x27m starting the " ++ tc.toolName.getD "agentSearch_fallback" ++
          " for \x27" ++ q ++
          "\x27. This may take a moment. I\x27ll notify you in the chat when it\x27s complete.") ∧
    (∀ k, alistKeyCount k (handle_agent_search st tc).2.completed_async_tool_results ≤
      alistKeyCount k st.completed_async_tool_results) ∧
    (∀ (st2 : BgState) (tc2 : ToolUseContent) (id2 : String)
        (fields2 : List (String × JVal)) (v2 : JVal),
      tc2.toolUseId = some id2 → id2 ≠ "" →
      tc2.content = some (.ok (.obj fields2)) →
      alistLookup (pyLower (tc2.toolName.getD "imageAnalyzer"))
        st2.completed_async_tool_results = some v2 →
      (handle_imageanalyzer st2 tc2).1.status = some "success" ∧
      alistLookup (pyLower (tc2.toolName.getD "imageAnalyzer"))
        (handle_imageanalyzer st2 tc2).2.completed_async_tool_results = none) := by
  have h1 := handle_agent_search_cache_hit st tc id q fields v hid hne hc hq hqne hv
  have hpop : alistLookup (pyLower (tc.toolName.getD "agentSearch_fallback"))
      (handle_agent_search st tc).2.completed_async_tool_results = none := by
    rw [h1]; exact alistLookup_erase _ _
  refine ⟨by rw [h1], hpop, ?_, ?_, ?_⟩
  · by_cases hact : id ∈ (handle_agent_search st tc).2.active_background_tasks
    · left
      rw [handle_agent_search_still_working (handle_agent_search st tc).2 tc id q fields
        hid hne hc hq hqne hpop hact]
    · right
      rw [handle_agent_search_launch (handle_agent_search st tc).2 tc id q fields
        hid hne hc hq hqne hpop hact]
  · intro k
    rw [h1]
    exact alistKeyCount_erase_le _ _ _
  · intro st2 tc2 id2 fields2 v2 hid2 hne2 hc2 hv2
    have h2 := handle_imageanalyzer_cache_hit st2 tc2 id2 fields2 v2 hid2 hne2 hc2 hv2
    refine ⟨by rw [h2], ?_⟩
    rw [h2]
    exact alistLookup_erase _ _

theorem respLoop_append_chunks (pre rest : List RecvEvent)
    (h : ∀ e ∈ pre, e.isChunk = true) :
    respLoop (pre ++ rest) = (chunkOuts pre ++ (respLoop rest).1, (respLoop rest).2) := by
  induction pre with
  | nil => simp [chunkOuts]
  | cons e pre ih =>
      have he : e.isChunk = true := h e (by simp)
      have hrest : ∀ x ∈ pre, x.isChunk = true := fun x hx => h x (by simp [hx])
      cases e with
      | chunk raw p =>
          simp [respLoop, chunkOuts, ih hrest]
      | emptyValue => simp [RecvEvent.isChunk] at he
      | noOutput => simp [RecvEvent.isChunk] at he
      | stopIter => simp [RecvEvent.isChunk] at he
      | cancel => simp [RecvEvent.isChunk] at he
      | err msg => simp [RecvEvent.isChunk] at he

theorem chunkOuts_no_fatal (l : List RecvEvent) :
    (chunkOuts l).countP OutMsg.isFatal = 0 := by
  induction l with
  | nil => simp [chunkOuts]
  | cons e l ih =>
      cases e with
      | chunk raw p =>
          cases p <;> simp [chunkOuts, chunkOut, OutMsg.isFatal] at ih ⊢ <;> exact ih
      | emptyValue => simpa [chunkOuts, chunkOut] using ih
      | noOutput => simpa [chunkOuts, chunkOut] using ih
      | stopIter => simpa [chunkOuts, chunkOut] using ih
      | cancel => simpa [chunkOuts, chunkOut] using ih
      | err msg => simpa [chunkOuts, chunkOut] using ih

theorem respLoop_no_sentinel (evts : List RecvEvent) :
    ∀ m ∈ (respLoop evts).1, m.isSentinel = false := by
  induction evts with
  | nil => simp [respLoop]
  | cons e evts ih =>
      cases e with
      | chunk raw p =>
          intro m hm
          simp [respLoop, chunkOut] at hm
          rcases hm with hm | hm
          · cases p <;> simp_all [chunkOut, OutMsg.isSentinel]
          · exact ih m hm
      | emptyValue => simp [respLoop]
      | noOutput => simp [respLoop]
      | stopIter => simp [respLoop]
      | cancel => simp [respLoop]
      | err msg =>
          intro m hm
          simp [respLoop] at hm
          by_cases hf : is_fatal_bedrock_error msg
          · simp [hf] at hm
            simp [hm, OutMsg.isSentinel]
          · simp [hf] at hm

theorem forward_responses_stops_at_sentinel (l tail : List OutMsg)
    (h : ∀ m ∈ l, m.isSentinel = false) :
    forward_responses (l ++ OutMsg.sentinel :: tail) = l := by
  induction l with
  | nil => simp [forward_responses]
  | cons m l ih =>
      have hm : m.isSentinel = false := h m (by simp)
      have hl : ∀ x ∈ l, x.isSentinel = false := fun x hx => h x (by simp [hx])
      cases m with
      | sentinel => simp [OutMsg.isSentinel] at hm
      | event j => simp [forward_responses, ih hl]
      | decodeError raw => simp [forward_responses, ih hl]
      | fatalError payload => simp [forward_responses, ih hl]

/-- C6: classification of receive errors in the response loop.  After
any run of ordinary chunks, a receive exception ends the loop at once
(the remaining script is never processed): when its message contains
one of the fixed fatal substrings, exactly one fatal-error notification
is pushed to the outbound queue before the `None` sentinel; otherwise
nothing but the sentinel is pushed; in both cases `is_active` ends up
false and the loop has exited — it never retries. -/
theorem claim_C6_fatal_error_classification (pre : List RecvEvent) (msg : String)
    (rest : List RecvEvent) (hpre : ∀ e ∈ pre, e.isChunk = true) :
    (process_responses (pre ++ .err msg :: rest)).1 =
      chunkOuts pre ++
        (if is_fatal_bedrock_error msg then [.fatalError (fatal_error_payload msg)] else [])
        ++ [.sentinel] ∧
    (process_responses (pre ++ .err msg :: rest)).2.1 = false ∧
    ((process_responses (pre ++ .err msg :: rest)).1.countP OutMsg.isFatal =
      if is_fatal_bedrock_error msg then 1 else 0) ∧
    loopExits (pre ++ .err msg :: rest) = true := by
  have hl := respLoop_append_chunks pre (.err msg :: rest) hpre
  have herr : respLoop (RecvEvent.err msg :: rest) =
      ((if is_fatal_bedrock_error msg then [.fatalError (fatal_error_payload msg)] else []),
       false, false, true) := by
    simp [respLoop]
  refine ⟨?_, rfl, ?_, ?_⟩
  · simp [process_responses, hl, herr]
  · simp only [process_responses, hl, herr]
    by_cases hf : is_fatal_bedrock_error msg <;>
      simp [hf, List.countP_append, chunkOuts_no_fatal, OutMsg.isFatal]
  · simp [loopExits, hl, herr]

/-- C7: on every exit path of the response loop, exactly one `None`
sentinel is pushed to the outbound queue, it is the last message, and
the forwarder terminates on dequeuing it without serializing it — the
wire receives exactly the messages before the sentinel. -/
theorem claim_C7_sentinel_on_exit (evts : List RecvEvent)
    (hx : loopExits evts = true) :
    (process_responses evts).1.countP OutMsg.isSentinel = 1 ∧
    (process_responses evts).1.getLast? = some .sentinel ∧
    forward_responses (process_responses evts).1 = (process_responses evts).1.dropLast := by
  have hns := respLoop_no_sentinel evts
  refine ⟨?_, ?_, ?_⟩
  · simp [process_responses, List.countP_append, OutMsg.isSentinel]
    intro m hm
    simpa [OutMsg.isSentinel] using hns m hm
  · simp [process_responses]
  · have hfwd := forward_responses_stops_at_sentinel (respLoop evts).1 [] hns
    simp [process_responses, hfwd]

/-- C8: the numberRace handler on parsed input `{"number": 3}` sleeps 3
time units and returns the success payload with the exact done message;
on parsed input `{"number": "abc"}` it returns an error payload at once
with no wait. -/
theorem claim_C8_number_race :
    handle_number_race (numberRaceContent (.num 3)) =
      ({ result := "I am done waiting for 3 seconds.", status := some "success" }, 3) ∧
    (handle_number_race (numberRaceContent (.str "abc"))).1.status = some "error" ∧
    (handle_number_race (numberRaceContent (.str "abc"))).2 = 0 := by
  refine ⟨?_, ?_, ?_⟩ <;>
    simp [handle_number_race, numberRaceContent, ToolUseContent.contentParsed,
      pyDictGet, alistLookup, is_integer, pyIntParse, pyIntOf, pyStr, pyRepr] <;>
    decide

theorem claim_C1_agent_search_retrieval_protocol_witness :
    agentSearchContent.toolUseId = some "tid1" ∧
    handle_agent_search bgInit agentSearchContent =
      ({ result := "Okay, I\x27m starting the " ++
           agentSearchContent.toolName.getD "agentSearch_fallback" ++
           " for \x27" ++ "X" ++
           "\x27. This may take a moment. I\x27ll notify you in the chat when it\x27s complete.",
         status := some "success" },
       { bgInit with active_background_tasks :=
           "tid1" :: bgInit.active_background_tasks }) :=
  ⟨rfl, (claim_C1_agent_search_retrieval_protocol bgInit agentSearchContent "tid1" "X"
      [("query", .str "X")] rfl (by decide) rfl rfl (by decide)).2.2.1 rfl
      (by simp [bgInit])⟩

theorem claim_C2_one_background_task_per_id_witness :
    "tid1" ∉ bgInit.active_background_tasks ∧
    (launch_background_tool_task bgInit "tid1" "agentSearch").2 = true :=
  ⟨by simp [bgInit], (claim_C2_one_background_task_per_id bgInit "tid1" "agentSearch"
      (.str "r") (by simp [bgInit])).1⟩

theorem claim_C3_cache_consume_on_read_witness :
    alistLookup (pyLower (agentSearchContent.toolName.getD "agentSearch_fallback"))
      (BgState.mk [("agentsearch", .str "res")] [] []).completed_async_tool_results =
        some (.str "res") ∧
    (handle_agent_search ⟨[("agentsearch", .str "res")], [], []⟩ agentSearchContent).1 =
      { result := jsonDumps (.str "res"), status := some "success" } :=
  ⟨rfl, (claim_C3_cache_consume_on_read ⟨[("agentsearch", .str "res")], [], []⟩
      agentSearchContent "tid1" "X" [("query", .str "X")] (.str "res")
      rfl (by decide) rfl rfl (by decide) rfl).1⟩

theorem claim_C6_fatal_error_classification_witness :
    (∀ e ∈ ([] : List RecvEvent), e.isChunk = true) ∧
    (process_responses ([] ++ .err "ValidationException: bad voice" :: [])).2.1 = false :=
  ⟨by simp, (claim_C6_fatal_error_classification [] "ValidationException: bad voice" []
      (by simp)).2.1⟩

theorem claim_C7_sentinel_on_exit_witness :
    loopExits [RecvEvent.stopIter] = true ∧
    (process_responses [RecvEvent.stopIter]).1.countP OutMsg.isSentinel = 1 :=
  ⟨rfl, (claim_C7_sentinel_on_exit [RecvEvent.stopIter] rfl).1⟩

/-- C4: for every tool name whose lower-cased form is not a key of the
tool handler registry, `processToolUse` returns the not-recognized
payload with status "error"; being a total function into `ToolPayload`,
it raises nothing to its caller. -/
theorem claim_C4_unknown_tool (runHandler : String → Except String ToolPayload)
    (toolName : String) (h : pyLower toolName ∉ tool_handlers_keys) :
    processToolUse runHandler toolName =
      { result := s!"Tool {toolName} is not implemented or recognized by the backend.",
        status := some "error" } := by
  simp [processToolUse, h]

theorem claim_C4_unknown_tool_witness :
    pyLower "translate" ∉ tool_handlers_keys ∧
    processToolUse (fun _ => .error "boom") "translate" =
      { result := "Tool translate is not implemented or recognized by the backend.",
        status := some "error" } :=
  ⟨by decide, claim_C4_unknown_tool _ _ (by decide)⟩

/-- C5: for every registered tool whose handler raises, `processToolUse`
catches the exception and returns the uniform error payload
`An unexpected error occurred while executing tool <name>.` with
status "error"; since `processToolUse` is total into `ToolPayload`, no
handler exception propagates into the response loop. -/
theorem claim_C5_handler_exception_uniform (runHandler : String → Except String ToolPayload)
    (toolName e : String) (hk : pyLower toolName ∈ tool_handlers_keys)
    (he : runHandler (pyLower toolName) = .error e) :
    processToolUse runHandler toolName =
      { result := s!"An unexpected error occurred while executing tool {toolName}.",
        status := some "error" } := by
  simp [processToolUse, hk, he]

theorem claim_C5_handler_exception_uniform_witness :
    pyLower "numberRace" ∈ tool_handlers_keys ∧
    processToolUse (fun _ => .error "boom") "numberRace" =
      { result := "An unexpected error occurred while executing tool numberRace.",
        status := some "error" } :=
  ⟨by decide, claim_C5_handler_exception_uniform _ "numberRace" "boom" (by decide) rfl⟩

/-- C9: the status of the upstream toolResult event is "error" exactly when
the "status" entry of the dispatch payload is the string "error"; any other
value, or an absent entry, is normalized to "success". -/
theorem claim_C9_status_normalization (toolResult : List (String × JVal)) :
    (tool_result_event_status toolResult = "error" ↔
      alistLookup "status" toolResult = some (.str "error")) ∧
    (alistLookup "status" toolResult = none →
      tool_result_event_status toolResult = "success") ∧
    (∀ v, alistLookup "status" toolResult = some v → v ≠ .str "error" →
      tool_result_event_status toolResult = "success") := by
  rcases hv : alistLookup "status" toolResult with _ | v
  · refine ⟨?_, fun _ => ?_, fun v h => ?_⟩
    · simp [tool_result_event_status, hv]
    · simp [tool_result_event_status, hv]
    · simp at h
  · refine ⟨?_, fun h => ?_, fun w hw hne => ?_⟩
    · cases v <;> simp [tool_result_event_status, hv]
    · simp [hv] at h
    · have hwv : w = v := by simp [hv] at hw; exact hw.symm
      subst hwv
      cases w <;> simp [tool_result_event_status, hv] <;>
        rename_i s <;>
        · have hs : s ≠ "error" := fun hh => hne (by rw [hh])
          simp [hs]

theorem claim_C9_status_normalization_witness :
    tool_result_event_status [("status", JVal.str "error")] = "error" ∧
    tool_result_event_status [("result", JVal.str "done")] = "success" :=
  ⟨(claim_C9_status_normalization _).1.mpr rfl,
   (claim_C9_status_normalization _).2.1 rfl⟩

/-- C10: delivering screenshot data for an operation id with no pending
event leaves the manager state unchanged — nothing enters
`received_screenshot_data`, no event is set, no waiting task is woken
(only a warning is logged) — so a late delivery after the waiter has
timed out and deregistered can never signal a second time. -/
theorem claim_C10_late_screenshot_delivery_noop (st : ScreenshotState)
    (analysis_id : String) (image_data_url error_message : Option String)
    (h : eventLookup analysis_id st.pending_screenshot_events = none) :
    deliver_screenshot_data st analysis_id image_data_url error_message = st := by
  simp [deliver_screenshot_data, h]

theorem claim_C10_late_screenshot_delivery_noop_witness :
    eventLookup "op1" (ScreenshotState.mk [] []).pending_screenshot_events = none ∧
    deliver_screenshot_data ⟨[], []⟩ "op1" (some "data:image/png;base64,xyz") none = ⟨[], []⟩ :=
  ⟨rfl, claim_C10_late_screenshot_delivery_noop ⟨[], []⟩ "op1" _ _ rfl⟩
